import Mathlib

/-!
Verification development for the LIRC client front end (src/client.c).

The repository ships the interactive client (client.c) together with a build
script; the library half (irc.c, irc.h, numerics.h) is not part of the
sources, so library entry points are modelled at their interface boundary,
and the few constants client.c relies on are taken from the values that
client.c itself documents in comments and help text (and from the spec).

C strings are embedded as `List Char`; machine integers that matter only as
small counters are embedded as `Nat` or `Int`.
-/

namespace Lirc

/-- Log levels of enum irc_log_level, as used by client.c through the
client_log macro. -/
inductive LogLevel
  | err
  | warn
  | info
  | debug
  deriving DecidableEq, Repr

/-- Command classification of a parsed message, mirroring the values of
irc_msg_type that client.c's handle_irc_msg switches on.  The constructor
`unrecognized` stands for any command that has no explicit case in the
switch (the default label at client.c:537). -/
inductive IrcCmd
  | numeric
  | privmsg
  | notice
  | ping
  | join
  | part
  | quit
  | kick
  | nick
  | mode
  | error
  | topic
  | unrecognized
  deriving DecidableEq, Repr

/-- CTCP extended-data verbs (enum irc_ctcp_type): the closed set named in
the comment at client.c:455 and in the spec's CTCP sub-parser section. -/
inductive CtcpType
  | action
  | version
  | time
  | ping
  | dcc
  | sed
  | unknown
  deriving DecidableEq, Repr

/-- Name of a CTCP verb, as irc_ctcp_name would render it (the library is
not in src/; the names are the spec's closed verb list). -/
def ctcpName : CtcpType → List Char
  | .action => ("ACTION").toList
  | .version => ("VERSION").toList
  | .time => ("TIME").toList
  | .ping => ("PING").toList
  | .dcc => ("DCC").toList
  | .sed => ("SED").toList
  | .unknown => ("UNKNOWN").toList

/-- View of one parsed message as handle_irc_msg observes it through the
irc_msg accessors: command classification, numeric code, raw command token,
origin (irc_msg_prefix), body, derived channel, and the CTCP facts
(irc_msg_is_ctcp, the success of irc_parse_msg_ctcp, irc_msg_ctcp_type). -/
structure IrcMsg where
  type : IrcCmd
  numericCode : Nat
  command : List Char
  pfx : List Char
  body : List Char
  channel : List Char
  isCtcp : Bool
  ctcpParsed : Bool
  ctcpType : CtcpType
  deriving DecidableEq, Repr

/-- Connection state of the client that handle_irc_msg reads and writes
through irc_client_nickname / irc_client_set_nick, plus the front end's
do_not_disturb toggle. -/
structure ClientState where
  nickname : List Char
  hostname : List Char
  dnd : Bool
  deriving DecidableEq, Repr

/-- Inputs of handle_irc_msg that come from the wall clock: the strftime
result used for a CTCP TIME reply (client.c:471) and the formatted
seconds figure printed for a CTCP PING reply (client.c:486). -/
structure MsgEnv where
  timeStr : List Char
  pingSecsStr : List Char
  deriving DecidableEq, Repr

/-- Observable actions handle_irc_msg performs: user-facing prints
(irc_print), calls into the process-wide logging callback (client_log),
and the library calls irc_client_ctcp_reply, irc_client_pong,
irc_client_set_nick and update_prompt. -/
inductive Effect
  | ircPrint (s : List Char)
  | logMsg (lvl : LogLevel) (s : List Char)
  | ctcpReply (target : List Char) (t : CtcpType) (data : List Char)
  | pong
  | setNick (n : List Char)
  | promptUpdate
  deriving DecidableEq, Repr

/-- ANSI color escapes from client.c (COLOR_RED etc.). -/
def colorReset : List Char := ("\x1b[0m").toList

def colorRed : List Char := ("\x1b[1;31m").toList

def colorGreen : List Char := ("\x1b[1;32m").toList

def colorCyan : List Char := ("\x1b[1;36m").toList

def nl : List Char := [Char.ofNat 10]

/-- IRC numeric replies used by the switch in handle_irc_msg.  numerics.h
is not under src/, but client.c documents every value in the comments
around the case labels (for example the label groups at client.c:395,
404, 410, 415, 421, 426, 429, 434, 437-438). -/
def RPL_WELCOME : Nat := 1
def RPL_YOURHOST : Nat := 2
def RPL_CREATED : Nat := 3
def RPL_MYINFO : Nat := 4
def RPL_ISUPPORT : Nat := 5
def RPL_STATSDLINE : Nat := 250
def RPL_LUSERCLIENT : Nat := 251
def RPL_LUSEROP : Nat := 252
def RPL_LUSERUNKNOWN : Nat := 253
def RPL_LUSERCHANNELS : Nat := 254
def RPL_LUSERME : Nat := 255
def RPL_LOCALUSERS : Nat := 265
def RPL_GLOBALUSERS : Nat := 266
def RPL_MOTDSTART : Nat := 375
def RPL_MOTD : Nat := 372
def RPL_ENDOFMOTD : Nat := 376
def RPL_NAMREPLY : Nat := 353
def RPL_ENDOFNAMES : Nat := 366
def RPL_VISIBLEHOST : Nat := 396
def RPL_LISTSTART : Nat := 321
def RPL_LIST : Nat := 322
def RPL_LISTEND : Nat := 323
def ERR_NOTEXTTOSEND : Nat := 412
def ERR_CANNOTSENDTOCHAN : Nat := 404
def ERR_UNKNOWNCOMMAND : Nat := 421

/-- The numerics whose case labels all share the body
irc_print of the message body followed by a newline (the fall-through
groups at client.c:396-433). -/
def printsBodyNumeric (n : Nat) : Bool :=
  n = RPL_WELCOME || n = RPL_YOURHOST || n = RPL_CREATED || n = RPL_MYINFO ||
  n = RPL_ISUPPORT || n = RPL_STATSDLINE || n = RPL_LUSERCLIENT || n = RPL_LUSEROP ||
  n = RPL_LUSERUNKNOWN || n = RPL_LUSERCHANNELS || n = RPL_LUSERME ||
  n = RPL_LOCALUSERS || n = RPL_GLOBALUSERS || n = RPL_MOTDSTART || n = RPL_MOTD ||
  n = RPL_ENDOFMOTD || n = RPL_NAMREPLY || n = RPL_ENDOFNAMES || n = RPL_VISIBLEHOST ||
  n = RPL_LISTSTART || n = RPL_LIST || n = RPL_LISTEND

/-- Every numeric with an explicit case label in handle_irc_msg's numeric
switch. -/
def handledNumeric (n : Nat) : Bool :=
  printsBodyNumeric n || n = ERR_NOTEXTTOSEND || n = ERR_CANNOTSENDTOCHAN ||
  n = ERR_UNKNOWNCOMMAND

/-- Decimal rendering of a numeric code, as the %d conversion prints it. -/
def natChars (n : Nat) : List Char := (Nat.repr n).toList

/-- Text of the warning logged for a numeric with no explicit case
(client.c:443). -/
def unhandledNumericText (msg : IrcMsg) : List Char :=
  ("Unhandled numeric: prefix: ").toList ++ msg.pfx ++ (", num: ").toList ++
    natChars msg.numericCode ++ (", body: ").toList ++ msg.body ++ nl

/-- Text of the warning logged for a command with no explicit case
(client.c:538). -/
def unhandledCommandText (msg : IrcMsg) : List Char :=
  ("Unhandled command: prefix: ").toList ++ msg.pfx ++ (", command: ").toList ++
    msg.command ++ (", body: ").toList ++ msg.body ++ nl

/-- The numeric arm of handle_irc_msg's outer switch (client.c:393-445). -/
def numericCase (msg : IrcMsg) : List Effect :=
  if printsBodyNumeric msg.numericCode then
    [Effect.ircPrint (msg.body ++ nl)]
  else if msg.numericCode = ERR_NOTEXTTOSEND then
    [Effect.ircPrint (msg.pfx ++ [' '] ++ msg.body ++ nl)]
  else if msg.numericCode = ERR_CANNOTSENDTOCHAN || msg.numericCode = ERR_UNKNOWNCOMMAND then
    [Effect.ircPrint (colorRed ++ msg.pfx ++ [' '] ++ msg.body ++ colorReset ++ nl)]
  else
    [Effect.logMsg LogLevel.warn (unhandledNumericText msg)]

/-- Case-insensitive equality of two characters, as strcasecmp and
strncasecmp compare byte pairs. -/
def charEqCI (a b : Char) : Bool := a.toLower = b.toLower

/-- The mention check at client.c:449:
strncasecmp(irc_msg_body(msg), nick, strlen(nick)) = 0, i.e. the client's
nickname is a case-insensitive prefix of the message body. -/
def mentionsNick (nickname body : List Char) : Bool :=
  match nickname, body with
  | [], _ => true
  | _ :: _, [] => false
  | a :: as, b :: bs => charEqCI a b && mentionsNick as bs

/-- The bell printed for a mention when Do Not Disturb is off
(client.c:449-451). -/
def bellEffects (st : ClientState) (msg : IrcMsg) : List Effect :=
  if !st.dnd && mentionsNick st.nickname msg.body then
    [Effect.ircPrint [Char.ofNat 7]]
  else []

/-- The CTCP handling block at client.c:452-492, entered when
irc_msg_is_ctcp holds and irc_parse_msg_ctcp succeeded.  Requests arrive
on PRIVMSG and replies on NOTICE, so the block branches on the carrying
command alone (client.c:454). -/
def ctcpCase (env : MsgEnv) (msg : IrcMsg) : List Effect :=
  if msg.type = IrcCmd.privmsg then
    match msg.ctcpType with
    | .action =>
        [Effect.ircPrint (("[ACTION] ").toList ++ msg.pfx ++ [' '] ++ msg.channel ++
          [' '] ++ msg.body ++ nl)]
    | .ping => [Effect.ctcpReply msg.pfx CtcpType.ping msg.body]
    | .time => [Effect.ctcpReply msg.pfx CtcpType.time env.timeStr]
    | t =>
        [Effect.logMsg LogLevel.err
          (("Unhandled CTCP extended data type: ").toList ++ ctcpName t ++ nl)]
  else
    match msg.ctcpType with
    | .ping =>
        [Effect.ircPrint (("Ping reply from ").toList ++ msg.pfx ++ (" in ").toList ++
          env.pingSecsStr ++ (" seconds").toList ++ nl)]
    | t =>
        [Effect.ircPrint (("CTCP ").toList ++ ctcpName t ++ (" reply ").toList ++
          msg.body ++ (" from ").toList ++ msg.pfx ++ nl)]

/-- The PRIVMSG/NOTICE arm (client.c:446-498): optional mention bell, then
either the CTCP block or the plain chat line print. -/
def privmsgNoticeCase (env : MsgEnv) (st : ClientState) (msg : IrcMsg) : List Effect :=
  bellEffects st msg ++
    (if msg.isCtcp && msg.ctcpParsed then ctcpCase env msg
     else
       [Effect.ircPrint (msg.channel ++ (" <").toList ++ msg.pfx ++ ("> ").toList ++
         msg.body ++ nl)])

/-- The NICK arm (client.c:514-527): print the change, copy the origin into
a 64-byte buffer (strncpy keeps at most 63 characters), take the part before
the first bang as the nick, and only when it equals the client's current
nickname adopt the new nick (skipping the leading colon of the body) and
refresh the prompt. -/
def nickCase (st : ClientState) (msg : IrcMsg) : ClientState × List Effect :=
  let printEff := Effect.ircPrint (msg.pfx ++ (" is ").toList ++ colorCyan ++
    ("now known as").toList ++ colorReset ++ [' '] ++ msg.body ++ nl)
  let oldnick := msg.pfx.take 63
  let realnick := oldnick.takeWhile (fun c => c ≠ '!')
  if realnick = st.nickname then
    ({ st with nickname := msg.body.drop 1 },
      [printEff, Effect.setNick (msg.body.drop 1), Effect.promptUpdate])
  else
    (st, [printEff])

/-- Shallow embedding of handle_irc_msg (client.c:386-540): the event
callback the receive loop invokes once per parsed message.  It returns the
updated client state and the list of observable actions, in program
order. -/
def handle_irc_msg (env : MsgEnv) (st : ClientState) (msg : IrcMsg) :
    ClientState × List Effect :=
  match msg.type with
  | .numeric => (st, numericCase msg)
  | .privmsg => (st, privmsgNoticeCase env st msg)
  | .notice => (st, privmsgNoticeCase env st msg)
  | .ping => (st, [Effect.pong])
  | .join =>
      (st, [Effect.ircPrint (msg.pfx ++ (" has ").toList ++ colorGreen ++
        ("joined").toList ++ colorReset ++ [' '] ++ msg.channel ++ nl)])
  | .part =>
      (st, [Effect.ircPrint (msg.pfx ++ (" has ").toList ++ colorRed ++
        ("left").toList ++ colorReset ++ [' '] ++ msg.channel ++ nl)])
  | .quit =>
      (st, [Effect.ircPrint (msg.pfx ++ (" has ").toList ++ colorRed ++
        ("quit").toList ++ colorReset ++ [' '] ++ msg.body ++ nl)])
  | .kick =>
      (st, [Effect.ircPrint (msg.pfx ++ (" has been ").toList ++ colorRed ++
        ("kicked").toList ++ colorReset ++ [' '] ++ msg.body ++ nl)])
  | .nick => nickCase st msg
  | .mode => (st, [Effect.ircPrint (msg.pfx ++ [' '] ++ msg.body ++ nl)])
  | .error => (st, [Effect.ircPrint (colorRed ++ msg.body ++ colorReset ++ nl)])
  | .topic =>
      (st, [Effect.ircPrint (msg.pfx ++ (" has ").toList ++ colorGreen ++
        ("changed the topic").toList ++ colorReset ++ (" of ").toList ++ msg.body ++ nl)])
  | .unrecognized => (st, [Effect.logMsg LogLevel.warn (unhandledCommandText msg)])

/-- Running the callback over a list of delivered messages in arrival
order, as irc_loop would, threading the client state and accumulating
effects. -/
def runCallback (env : MsgEnv) (st : ClientState) : List IrcMsg → ClientState × List Effect
  | [] => (st, [])
  | m :: rest =>
      let (st1, effs) := handle_irc_msg env st m
      let (st2, effs2) := runCallback env st1 rest
      (st2, effs ++ effs2)

/-- Recognizer for the automatic-reply effect (irc_client_ctcp_reply). -/
def isCtcpReplySend : Effect → Bool
  | .ctcpReply _ _ _ => true
  | _ => false

/-- Recognizer for user-facing report effects (irc_print). -/
def isUserReport : Effect → Bool
  | .ircPrint _ => true
  | _ => false

/-- Direction the CTCP block assigns, read off the branch condition at
client.c:454: the carrying command alone decides request versus reply. -/
def ctcpDirectionIsRequest (msg : IrcMsg) : Bool :=
  msg.type = IrcCmd.privmsg

/-- Nick portion of a message origin as the claim speaks of it: everything
before the first bang of the full, untruncated origin string. -/
def prefixNickPortion (p : List Char) : List Char :=
  p.takeWhile (fun c => c ≠ '!')

/-- Nick portion as the code actually computes it: the origin is first
copied by strncpy into a 64-byte buffer, keeping at most its first 63
bytes, and strsep then cuts at the first bang of that truncated copy
(client.c:516-519). -/
def truncatedNickPortion (p : List Char) : List Char :=
  (p.take 63).takeWhile (fun c => c ≠ '!')

/-- A NICK message whose origin nick is 64 characters long: its first 63
characters coincide with the 63-character nickname below. -/
def nickCexMsg : IrcMsg :=
  { type := IrcCmd.nick, numericCode := 0, command := [],
    pfx := List.replicate 63 'a' ++ ('b' :: '!' :: ("u@h").toList),
    body := (":evil").toList, channel := [],
    isCtcp := false, ctcpParsed := false, ctcpType := CtcpType.unknown }

/-- A client whose nickname is 63 characters of a. -/
def nickCexSt : ClientState :=
  { nickname := List.replicate 63 'a', hostname := ("irc.example.org").toList,
    dnd := false }

/-! Tokenization helpers used by handle_send_msg. -/

/-- Behaviour of strsep(&s, delim) on a non-null string for a
one-character delimiter set: the returned token is everything before the
first delimiter byte; when a delimiter occurs s moves past it, otherwise
s becomes NULL (none). -/
def strsepChar (d : Char) : List Char → List Char × Option (List Char)
  | [] => ([], none)
  | c :: cs =>
      if c = d then ([], some cs)
      else
        let (t, r) := strsepChar d cs
        (c :: t, r)

/-- Behaviour of strsep(&s, delim) including the null case: strsep(3)
returns NULL when *stringp is NULL. -/
def strsepOpt (d : Char) : Option (List Char) → Option (List Char) × Option (List Char)
  | none => (none, none)
  | some s => let (t, r) := strsepChar d s; (some t, r)

/-- Equality under strcasecmp: byte-wise case-insensitive comparison. -/
def strcaseeq (a b : List Char) : Bool :=
  a.map Char.toLower = b.map Char.toLower

/-- Value of a run of decimal digits. -/
def digitsVal (l : List Char) : Nat :=
  l.foldl (fun a c => a * 10 + (c.toNat - 48)) 0

/-- Whitespace bytes skipped by atoi. -/
def isSpaceByte (c : Char) : Bool :=
  c = ' ' || c.toNat = 9 || c.toNat = 10 || c.toNat = 11 || c.toNat = 12 || c.toNat = 13

/-- Embedding of atoi(3): skip whitespace, optional sign, then the
longest run of digits (0 when there is none). -/
def atoiChars (s : List Char) : Int :=
  let s1 := s.dropWhile isSpaceByte
  match s1 with
  | '-' :: rest => -(digitsVal (rest.takeWhile Char.isDigit) : Int)
  | '+' :: rest => (digitsVal (rest.takeWhile Char.isDigit) : Int)
  | _ => (digitsVal (s1.takeWhile Char.isDigit) : Int)

/-- Modelled from the spec: irc_ctcp_from_string lives in irc.c, which is
not under src/.  Spec 4.3 requires case-sensitive verb matching against
the closed CTCP verb set; client.c:678 checks for a negative result on an
unmatched verb, embedded here as none. -/
def irc_ctcp_from_string (s : List Char) : Option CtcpType :=
  if s = ("ACTION").toList then some CtcpType.action
  else if s = ("VERSION").toList then some CtcpType.version
  else if s = ("TIME").toList then some CtcpType.time
  else if s = ("PING").toList then some CtcpType.ping
  else if s = ("DCC").toList then some CtcpType.dcc
  else if s = ("SED").toList then some CtcpType.sed
  else none

/-- Connection flag word (IRC_CLIENT_USE_TLS, IRC_CLIENT_VERIFY_SERVER,
IRC_CLIENT_USE_SASL are distinct bits of an int flag word in irc.h, which
is not under src/; the word is embedded as one Boolean per bit). -/
structure IrcFlags where
  useTls : Bool
  verifyServer : Bool
  useSasl : Bool
  deriving DecidableEq, Repr

/-- The zero flag word (flags = 0). -/
def flagsNone : IrcFlags := ⟨false, false, false⟩

/-- Network operations of the library that handle_send_msg can invoke;
each one writes to the transport (irc_send / irc_client_quit /
irc_client_channel_leave / ... / irc_client_connect). -/
inductive NetOp
  | rawSend (s : Option (List Char))
  | quitSend (s : Option (List Char))
  | channelLeave (s : Option (List Char))
  | channelJoin (s : Option (List Char))
  | privmsgSend (chan : List Char) (body : List Char)
  | noticeSend (chan : List Char) (body : List Char)
  | actionSend (chan : List Char) (body : Option (List Char))
  | ctcpRequest (target : List Char) (t : CtcpType)
  | nickChange (n : List Char)
  | topicSet (chan : List Char) (topicStr : List Char)
  | listChannels (filter : Option (List Char))
  | inviteUser (nick : List Char) (chan : List Char)
  | authSend (user : List Char) (pass : List Char)
  | clientConnect
  deriving DecidableEq, Repr

/-- Observable actions of handle_send_msg: library network calls, logging,
prints, and the local bookkeeping calls of the /server branch. -/
inductive CliEff
  | net (op : NetOp)
  | log (lvl : LogLevel) (s : List Char)
  | helpScreen
  | print (s : List Char)
  | newClient (host : List Char) (port : Int)
  | destroyClient
  | setFlagsEff (f : IrcFlags)
  | startRxThread
  | promptRefresh
  | termTitle (s : List Char)
  | pingTimerSet
  deriving DecidableEq, Repr

/-- Front-end state read and written by handle_send_msg, together with the
outcome oracles for the external calls the /server branch performs (the
values irc_client_new / irc_client_connect / pthread_create would return)
and for the send operations (sendRes is the int an invoked irc_client_*
send returns). -/
structure CliState where
  connected : Bool
  fgChan : List Char
  dnd : Bool
  debugLevel : Nat
  sendRes : Int
  serverNewOk : Bool
  serverConnectOk : Bool
  threadCreateOk : Bool
  deriving DecidableEq, Repr

/-- Text of the REQUIRED_PARAMETER error (client.c:542-546). -/
def missingParamText (name : List Char) : List Char :=
  ("Missing required parameter ").toList ++ name ++ nl

/-- Text of the not-connected rejection (client.c:641). -/
def notConnectedText : List Char :=
  ("Not connected to a server, operation not permitted.").toList ++ nl

/-- Text of the REQUIRE_FG_CHANNEL warning (client.c:548-552). -/
def noFgChanText : List Char :=
  ("No current foreground channel. Type /help for help.").toList ++ nl

/-- The /server branch of handle_send_msg (client.c:606-639). -/
def serverCase (st : CliState) (s : Option (List Char)) :
    Int × CliState × List CliEff :=
  let (server, s2) := strsepOpt ' ' s
  match server with
  | none => (-1, st, [CliEff.log LogLevel.err (missingParamText (("hostname").toList))])
  | some host =>
      let (portstr, _) := strsepOpt ' ' s2
      let port : Int := match portstr with
        | some p => atoiChars p
        | none => 0
      let flags := if port ≠ 0 ∧ port > 6670 then
          { flagsNone with useTls := true, verifyServer := false } else flagsNone
      let effs0 := [CliEff.newClient host port]
      if !st.serverNewOk then (-1, st, effs0)
      else
        let effs1 := effs0 ++ [CliEff.destroyClient] ++
          (if flags ≠ flagsNone then [CliEff.setFlagsEff flags] else [])
        let effs2 := effs1 ++ [CliEff.net NetOp.clientConnect]
        if !st.serverConnectOk then
          (-1, { st with connected := false },
            effs2 ++ [CliEff.log LogLevel.err
              (("Failed to connect to server ").toList ++ host ++ nl)])
        else
          let effs3 := effs2 ++ [CliEff.startRxThread]
          if !st.threadCreateOk then (-1, { st with connected := true }, effs3)
          else (0, { st with connected := true }, effs3 ++ [CliEff.promptRefresh])

/-- The slash-command dispatch of handle_send_msg (client.c:560-712),
entered with the command token and the rest of the line as strsep left
them.  Returns the int result, the updated front-end state, and the
observable actions in program order. -/
def handle_slash (st : CliState) (command : List Char) (s : Option (List Char)) :
    Int × CliState × List CliEff :=
  if strcaseeq command (("help").toList) then (0, st, [CliEff.helpScreen])
  else if strcaseeq command (("debug").toList) then
    let (m, _) := strsepOpt ' ' s
    match m with
    | none => (-1, st, [CliEff.log LogLevel.err (missingParamText (("level").toList))])
    | some mv =>
        let level := atoiChars mv
        if 0 ≤ level ∧ level ≤ 10 then
          (0, { st with debugLevel := level.toNat },
            [CliEff.print (("Debug level is now ").toList ++ natChars level.toNat ++ nl)])
        else (0, st, [])
  else if strcaseeq command (("dnd").toList) then
    (0, { st with dnd := !st.dnd },
      [CliEff.print (("Do Not Disturb is now ").toList ++
        (if !st.dnd then ("enabled").toList else ("disabled").toList) ++ nl)])
  else if strcaseeq command (("fg").toList) then
    let (channel, _) := strsepOpt ' ' s
    match channel with
    | none => (-1, st, [CliEff.log LogLevel.err (missingParamText (("channel").toList))])
    | some ch =>
        (0, { st with fgChan := ch.take 63 },
          [CliEff.termTitle (ch.take 63), CliEff.promptRefresh])
  else if strcaseeq command (("server").toList) then serverCase st s
  else if !st.connected then
    (-1, st, [CliEff.log LogLevel.err notConnectedText])
  else if strcaseeq command (("raw").toList) then
    (st.sendRes, st, [CliEff.net (NetOp.rawSend s)])
  else if strcaseeq command (("quit").toList) then
    (st.sendRes, st, [CliEff.net (NetOp.quitSend s)])
  else if strcaseeq command (("part").toList) then
    (st.sendRes, st, [CliEff.net (NetOp.channelLeave s)])
  else if strcaseeq command (("join").toList) then
    (st.sendRes, st, [CliEff.net (NetOp.channelJoin s)])
  else if strcaseeq command (("msg").toList) then
    let (channel, s2) := strsepOpt ' ' s
    match s2 with
    | none => (-1, st, [CliEff.log LogLevel.err (missingParamText (("message").toList))])
    | some body =>
        (st.sendRes, st, [CliEff.net (NetOp.privmsgSend (channel.getD []) body)])
  else if strcaseeq command (("notice").toList) then
    let (channel, s2) := strsepOpt ' ' s
    match s2 with
    | none => (-1, st, [CliEff.log LogLevel.err (missingParamText (("message").toList))])
    | some body =>
        (st.sendRes, st, [CliEff.net (NetOp.noticeSend (channel.getD []) body)])
  else if strcaseeq command (("me").toList) then
    if st.fgChan = [] then (-1, st, [CliEff.log LogLevel.warn noFgChanText])
    else (st.sendRes, st, [CliEff.net (NetOp.actionSend st.fgChan s)])
  else if strcaseeq command (("describe").toList) then
    let (channel, s2) := strsepOpt ' ' s
    match s2 with
    | none => (-1, st, [CliEff.log LogLevel.err (missingParamText (("message").toList))])
    | some body =>
        (st.sendRes, st, [CliEff.net (NetOp.actionSend (channel.getD []) (some body))])
  else if strcaseeq command (("ctcp").toList) then
    let (channel, s2) := strsepOpt ' ' s
    match channel with
    | none => (-1, st, [CliEff.log LogLevel.err (missingParamText (("target").toList))])
    | some target =>
        let (ctcpNameTok, _) := strsepOpt ' ' s2
        match ctcpNameTok with
        | none => (-1, st, [CliEff.log LogLevel.err (missingParamText (("code").toList))])
        | some cn =>
            match irc_ctcp_from_string cn with
            | none => (-1, st, [])
            | some ct =>
                (st.sendRes, st,
                  (if ct = CtcpType.ping then [CliEff.pingTimerSet] else []) ++
                    [CliEff.net (NetOp.ctcpRequest target ct)])
  else if strcaseeq command (("nick").toList) then
    let (m, _) := strsepOpt ' ' s
    match m with
    | none => (-1, st, [CliEff.log LogLevel.err (missingParamText (("nickname").toList))])
    | some n => (st.sendRes, st, [CliEff.net (NetOp.nickChange n)])
  else if strcaseeq command (("topic").toList) then
    let (channel, s2) := strsepOpt ' ' s
    match channel with
    | none => (-1, st, [CliEff.log LogLevel.err (missingParamText (("channel").toList))])
    | some ch =>
        match s2 with
        | none => (-1, st, [CliEff.log LogLevel.err (missingParamText (("topic").toList))])
        | some t => (st.sendRes, st, [CliEff.net (NetOp.topicSet ch t)])
  else if strcaseeq command (("list").toList) then
    (st.sendRes, st, [CliEff.net (NetOp.listChannels s)])
  else if strcaseeq command (("invite").toList) then
    let (nickname, s2) := strsepOpt ' ' s
    match nickname with
    | none => (-1, st, [CliEff.log LogLevel.err (missingParamText (("nickname").toList))])
    | some nk =>
        let (channel, _) := strsepOpt ' ' s2
        match channel with
        | none => (-1, st, [CliEff.log LogLevel.err (missingParamText (("channel").toList))])
        | some ch => (st.sendRes, st, [CliEff.net (NetOp.inviteUser nk ch)])
  else if strcaseeq command (("identify").toList) then
    let (nickname, s2) := strsepOpt ' ' s
    match nickname with
    | none => (-1, st, [CliEff.log LogLevel.err (missingParamText (("nickname").toList))])
    | some nk =>
        let (password, _) := strsepOpt ' ' s2
        match password with
        | none => (-1, st, [CliEff.log LogLevel.err (missingParamText (("password").toList))])
        | some pw =>
            (st.sendRes, st, [CliEff.net (NetOp.authSend nk pw), CliEff.promptRefresh])
  else
    (0, st, [CliEff.log LogLevel.warn (("Invalid command: ").toList ++ command ++ nl)])

/-- Shallow embedding of handle_send_msg (client.c:554-719): slash input
is tokenized and dispatched; anything else goes to the current foreground
channel when one is set. -/
def handle_send_msg (st : CliState) (input : List Char) :
    Int × CliState × List CliEff :=
  match input with
  | '/' :: rest =>
      let (command, s) := strsepChar ' ' rest
      handle_slash st command s
  | _ =>
      if st.fgChan = [] then (-1, st, [CliEff.log LogLevel.warn noFgChanText])
      else (st.sendRes, st, [CliEff.net (NetOp.privmsgSend st.fgChan input)])

/-- Recognizer for network I/O effects of the front end. -/
def isNetEff : CliEff → Bool
  | .net _ => true
  | _ => false

/-- Recognizer for error-level log effects. -/
def isLogErrEff : CliEff → Bool
  | .log LogLevel.err _ => true
  | _ => false

/-! The interactive read loop (client_readline), the interrupt handler,
and the receive thread. -/

/-- Local state of client_readline (client.c:227-341): the number of
characters accepted so far, the space left in the caller's buffer, the
lastpos flag that suppresses repeated line clearing, and the accumulated
line. -/
structure RLState where
  numRead : Nat
  len : Nat
  lastpos : Bool
  buf : List Char
  deriving DecidableEq, Repr

/-- One wake-up of the poll loop inside client_readline: an interrupted or
failed poll, one character of terminal input, end of terminal input, a
chunk read from the notification pipe (with the outcome of the clear-line
write that may accompany it), or a closed pipe. -/
inductive RLEvent
  | pollEINTR
  | pollFail
  | stdinChar (c : Char)
  | stdinClosed
  | pipeData (bytes : List Nat) (stdoutOk : Bool)
  | pipeClosed
  deriving DecidableEq, Repr

/-- Terminal-side actions of client_readline. -/
inductive TermEff
  | promptPrint
  | bell
  | clearLine
  | lineRedraw
  | outputShow (bytes : List Nat)
  | logErr
  deriving DecidableEq, Repr

/-- What client_readline hands back when it returns: the int result and
the value of the shutting_down global it may have set. -/
structure RLResult where
  ret : Int
  shuttingDown : Bool
  deriving DecidableEq, Repr

/-- One iteration of client_readline's poll loop (client.c:241-339),
driven by the event the poll reported.  Sum.inl continues the loop with
the updated state; Sum.inr leaves the function. -/
def client_readline_step (st : RLState) (e : RLEvent) :
    List TermEff × (RLState ⊕ RLResult) :=
  match e with
  | .pollEINTR => ([], Sum.inl st)
  | .pollFail => ([TermEff.logErr], Sum.inr ⟨-1, false⟩)
  | .stdinChar c =>
      if c = Char.ofNat 10 then
        if st.numRead = 0 then ([TermEff.promptPrint], Sum.inl st)
        else ([], Sum.inr ⟨(st.numRead : Int), false⟩)
      else if c.toNat = 8 || c.toNat = 127 then
        if st.numRead ≠ 0 then
          ([TermEff.lineRedraw],
            Sum.inl { st with numRead := st.numRead - 1, len := st.len + 1,
                              buf := st.buf.dropLast })
        else ([TermEff.bell, TermEff.lineRedraw], Sum.inl st)
      else
        let st2 : RLState := { st with buf := st.buf ++ [c], numRead := st.numRead + 1,
                                       len := st.len - 1, lastpos := false }
        if st2.len ≤ 1 then ([], Sum.inr ⟨(st2.numRead : Int), false⟩)
        else ([], Sum.inl st2)
  | .stdinClosed => ([], Sum.inr ⟨-1, false⟩)
  | .pipeData bytes stdoutOk =>
      if bytes.length = 0 then ([], Sum.inr ⟨-1, false⟩)
      else if bytes = [0] then ([], Sum.inr ⟨-1, true⟩)
      else if !st.lastpos && !stdoutOk then
        ([TermEff.clearLine, TermEff.logErr], Sum.inr ⟨-1, false⟩)
      else
        let pre := if !st.lastpos then [TermEff.clearLine] else []
        let redisplay :=
          if bytes.length < 511 &&
              (bytes.getLast? = some 10 ||
                (decide (2 ≤ bytes.length) && bytes.get? (bytes.length - 2) = some 10)) then
            [TermEff.promptPrint]
          else []
        (pre ++ [TermEff.outputShow bytes] ++ redisplay,
          Sum.inl { st with lastpos := true })
  | .pipeClosed => ([], Sum.inr ⟨-1, false⟩)

/-- client_readline as a whole: consume poll wake-ups until an iteration
leaves the loop; none means every supplied event was consumed with the
call still blocked. -/
def client_readline_run (st : RLState) : List RLEvent → Option RLResult
  | [] => none
  | e :: rest =>
      match (client_readline_step st e).2 with
      | Sum.inl st2 => client_readline_run st2 rest
      | Sum.inr r => some r

/-- Actions an interrupt handler could take on the notification channel:
a raw unbuffered write(2) of the given bytes, or buffered/formatted
output. -/
inductive SigEff
  | rawPipeWrite (bytes : List Nat)
  | bufferedOutput (s : List Char)
  deriving DecidableEq, Repr

/-- Embedding of __sigint_handler (client.c:343-349): one raw write of a
single byte, the NUL of the empty string literal, to the write end of the
notification pipe, and nothing else. -/
def __sigint_handler : List SigEff := [SigEff.rawPipeWrite [0]]

/-- Decision main's read loop takes after client_readline returns
(client.c:889-901): leave because shutdown was requested, leave because
the client disconnected, or hand the line to handle_send_msg and loop. -/
inductive LoopDecision
  | exitRequested
  | exitDisconnected
  | dispatchLine
  deriving DecidableEq, Repr

/-- The per-iteration decision of main's read loop. -/
def main_loop_step (shuttingDown : Bool) (res : Int) : LoopDecision :=
  if shuttingDown then LoopDecision.exitRequested
  else if res ≤ 0 then LoopDecision.exitDisconnected
  else LoopDecision.dispatchLine

/-- Connection state as rx_thread observes it through
irc_client_connected. -/
structure Conn where
  connected : Bool
  deriving DecidableEq, Repr

/-- Modelled from the spec: irc_loop is implemented in irc.c, which is not
under src/.  Spec 4.5 requires that the receive loop exit only on
peer-close or a non-recoverable transport error and that on exit the
Connection's connected flag already be false before termination is
signaled, so its return is embedded as a function whose result has
connected = false. -/
def irc_loop (c : Conn) : Conn := { c with connected := false }

/-- Steps rx_thread takes, in order. -/
inductive RxEv
  | logFileOpen
  | logOpenErr
  | loopRun
  | logInfoExited
  | assertNotConnected (ok : Bool)
  | pipeWriteByte
  deriving DecidableEq, Repr

/-- Embedding of rx_thread (client.c:207-225): open the session log, run
irc_loop to completion, log the exit, check the assertion
!irc_client_connected(client), and only then write the one-byte
termination signal to the notification pipe. -/
def rx_thread (c : Conn) (logOpenOk : Bool) : Conn × List RxEv :=
  let openEvs := if logOpenOk then [RxEv.logFileOpen]
    else [RxEv.logFileOpen, RxEv.logOpenErr]
  let c2 := irc_loop c
  (c2, openEvs ++ [RxEv.loopRun, RxEv.logInfoExited,
    RxEv.assertNotConnected (!c2.connected), RxEv.pipeWriteByte])

/-! Option parsing and the connect phase of main. -/

/-- Command-line options of main (client.c:733-790), one constructor per
getopt case, carrying the option argument where there is one. -/
inductive CliOpt
  | qm
  | a (chans : List Char)
  | d
  | f (chan : List Char)
  | h (host : List Char)
  | k (pass : List Char)
  | p (portArg : List Char)
  | s
  | t
  | u (user : List Char)
  | V
  deriving DecidableEq, Repr

/-- Result of option processing: the flag word, the port, the server
(defaulting to 127.0.0.1), credentials, autojoin and foreground channel,
the debug level, and whether a case made main return before connecting
(the help, version and excessive -d cases). -/
structure OptState where
  flags : IrcFlags
  port : Nat
  server : List Char
  username : Option (List Char)
  password : Option (List Char)
  autojoin : Option (List Char)
  fgchan : Option (List Char)
  debugLevel : Nat
  exited : Bool
  deriving DecidableEq, Repr

/-- Initial values of main's locals before the getopt loop. -/
def initOptState : OptState :=
  ⟨flagsNone, 0, ("127.0.0.1").toList, none, none, none, none, 0, false⟩

/-- One getopt case (client.c:735-790).  The -t case both sets USE_TLS and
clears VERIFY_SERVER; the -p case converts the argument with atoi into
the unsigned port variable. -/
def applyOpt (st : OptState) (o : CliOpt) : OptState :=
  if st.exited then st else
  match o with
  | .qm => { st with exited := true }
  | .a cs => { st with autojoin := some cs }
  | .d => if st.debugLevel ≥ 10 then { st with exited := true }
          else { st with debugLevel := st.debugLevel + 1 }
  | .f c => { st with fgchan := some c }
  | .h hs => { st with server := hs }
  | .k pw => { st with password := some pw }
  | .p ps => { st with port := ((atoiChars ps) % ((2 : Int) ^ 32)).toNat }
  | .s => { st with flags := { st.flags with useSasl := true } }
  | .t => { st with flags := { st.flags with useTls := true, verifyServer := false } }
  | .u us => { st with username := some us }
  | .V => { st with exited := true }

/-- The whole getopt loop. -/
def parseOpts (opts : List CliOpt) : OptState :=
  opts.foldl applyOpt initOptState

/-- Modelled from the spec: IRC_DEFAULT_PORT is declared in irc.h, which
is not under src/.  The spec calls it the protocol-standard plaintext
default, and client.c's own help text (line 748) states it is 6667. -/
def IRC_DEFAULT_PORT : Nat := 6667

/-- Modelled from the spec: IRC_DEFAULT_TLS_PORT is declared in irc.h,
which is not under src/.  The spec calls it the protocol-standard TLS
default, and client.c's own help text (line 748) states it is 6697. -/
def IRC_DEFAULT_TLS_PORT : Nat := 6697

/-- The port-default step of main (client.c:792-794). -/
def resolvePort (flags : IrcFlags) (port : Nat) : Nat :=
  if port = 0 then
    (if flags.useTls then IRC_DEFAULT_TLS_PORT else IRC_DEFAULT_PORT)
  else port

/-- The port main hands to the connection for a given option list. -/
def mainPortUsed (opts : List CliOpt) : Nat :=
  let st := parseOpts opts
  resolvePort st.flags st.port

/-- Events of main's startup and connect phase (client.c:796-871). -/
inductive MainEv
  | stdoutLine (s : List Char)
  | clientNew (host : List Char) (port : Nat) (user : List Char) (pass : List Char)
  | promptSet
  | setFlagsEv (f : IrcFlags)
  | autojoinSet
  | connectAttempt
  | zeroPassword (bytes : List Nat)
  | loginAttempt
  | fgChanSet
  | startRx
  | exitFail
  deriving DecidableEq, Repr

/-- Configuration and outcome oracles for one run of main's connect phase:
the parsed options, whether stdin is a terminal, what get_password would
yield when main asks for a password interactively, and the outcomes of
irc_client_new, irc_client_set_flags, irc_client_connect,
irc_client_login and pthread_create. -/
structure MainCfg where
  opts : OptState
  stdinIsTty : Bool
  pwReadResult : Option (List Char)
  newOk : Bool
  setFlagsOk : Bool
  connectOk : Bool
  loginOk : Bool
  threadOk : Bool
  deriving DecidableEq, Repr

/-- The password main ends up holding, with the flag telling whether it
lives in the interactive passwordbuf (client.c:799-806): the -k argument
when given, otherwise the interactively read password when a username was
given, no password was given and stdin is a terminal. -/
def resolvedPassword (cfg : MainCfg) : Option (List Char × Bool) :=
  if cfg.opts.username.isSome && cfg.opts.password.isNone && cfg.stdinIsTty then
    cfg.pwReadResult.map (fun pw => (pw, true))
  else cfg.opts.password.map (fun pw => (pw, false))

/-- Bytes of the caller's password storage after the memset at
client.c:848-854: the whole 73-byte passwordbuf when the password was read
interactively, otherwise strlen(password) bytes of the -k argument. -/
def zeroedPasswordBytes (pw : List Char) (fromStdin : Bool) : List Nat :=
  if fromStdin then List.replicate 73 0 else List.replicate pw.length 0

/-- The rx-thread start at the end of the connect phase (client.c:869-871). -/
def rxStartEvs (cfg : MainCfg) : List MainEv :=
  MainEv.startRx :: (if !cfg.threadOk then [MainEv.exitFail] else [])

/-- The debug identification line printed once connected (client.c:845). -/
def connectedLine (cfg : MainCfg) (port : Nat) : List Char :=
  ("Now connected to ").toList ++
    (if cfg.opts.flags.useTls then ("ircs").toList else ("irc").toList) ++
    ("://").toList ++ cfg.opts.server ++ [':'] ++ natChars port ++ nl

/-- Embedding of main's startup and connect phase (client.c:796-882) as
the ordered list of its externally visible steps.  The server variable
always holds a string and the resolved port is never 0, so the
connect-immediately branch at client.c:819 is the one taken. -/
def main_connect_phase (cfg : MainCfg) : List MainEv :=
  if cfg.opts.exited then [MainEv.exitFail] else
  if cfg.opts.username.isSome && cfg.opts.password.isNone && cfg.stdinIsTty
      && cfg.pwReadResult.isNone then [MainEv.exitFail]
  else
    let password := resolvedPassword cfg
    let port := resolvePort cfg.opts.flags cfg.opts.port
    let dbg : List MainEv := if cfg.opts.debugLevel ≠ 0 then
        [MainEv.stdoutLine (("IRC client started with debug level ").toList ++
          natChars cfg.opts.debugLevel ++ nl)]
      else []
    dbg ++ (MainEv.clientNew cfg.opts.server port (cfg.opts.username.getD [])
      ((password.map Prod.fst).getD []) ::
      (if !cfg.newOk then [MainEv.exitFail] else
        MainEv.promptSet :: MainEv.setFlagsEv cfg.opts.flags ::
        (if !cfg.setFlagsOk then [MainEv.exitFail] else
          MainEv.autojoinSet :: MainEv.connectAttempt ::
          (if !cfg.connectOk then
            [MainEv.stdoutLine (("Failed to connect").toList ++ nl), MainEv.exitFail]
          else
            (if cfg.opts.debugLevel ≠ 0 then [MainEv.stdoutLine (connectedLine cfg port)]
             else []) ++
            (match password with
             | some (pw, fromStdin) =>
                 MainEv.zeroPassword (zeroedPasswordBytes pw fromStdin) ::
                 MainEv.loginAttempt ::
                 (if !cfg.loginOk then
                   [MainEv.stdoutLine (("Authentication failed!").toList ++ nl),
                     MainEv.exitFail]
                 else
                   (if cfg.opts.fgchan.isSome then [MainEv.fgChanSet] else []) ++
                     rxStartEvs cfg)
             | none =>
                 (if cfg.opts.debugLevel ≠ 0 then
                   [MainEv.stdoutLine (("Connecting without authenticating...").toList ++ nl)]
                  else []) ++ rxStartEvs cfg)))))

/-- Check that no login attempt occurs before the first password-zeroing
event of a trace. -/
def zeroPrecedesLogin : List MainEv → Bool
  | [] => true
  | MainEv.loginAttempt :: _ => false
  | MainEv.zeroPassword _ :: _ => true
  | _ :: rest => zeroPrecedesLogin rest

/-- Check that no password-zeroing event occurs before the client object
is created. -/
def newPrecedesZero : List MainEv → Bool
  | [] => true
  | MainEv.zeroPassword _ :: _ => false
  | MainEv.clientNew _ _ _ _ :: _ => true
  | _ :: rest => newPrecedesZero rest

/-! Helper lemmas. -/

theorem nickCase_eq (st : ClientState) (msg : IrcMsg) :
    nickCase st msg =
      if truncatedNickPortion msg.pfx = st.nickname then
        ({ st with nickname := msg.body.drop 1 },
          [Effect.ircPrint (msg.pfx ++ (" is ").toList ++ colorCyan ++
            ("now known as").toList ++ colorReset ++ [' '] ++ msg.body ++ nl),
           Effect.setNick (msg.body.drop 1), Effect.promptUpdate])
      else
        (st, [Effect.ircPrint (msg.pfx ++ (" is ").toList ++ colorCyan ++
          ("now known as").toList ++ colorReset ++ [' '] ++ msg.body ++ nl)]) := rfl

theorem bell_filter_ctcp (st : ClientState) (m : IrcMsg) :
    (bellEffects st m).filter isCtcpReplySend = [] := by
  unfold bellEffects
  split <;> rfl

theorem bell_all_reports (st : ClientState) (m : IrcMsg) :
    ∀ e ∈ bellEffects st m, isUserReport e = true := by
  unfold bellEffects
  split <;> simp [isUserReport]

theorem strsepChar_no_delim (d : Char) (l : List Char) (h : d ∉ l) :
    strsepChar d l = (l, none) := by
  induction l with
  | nil => rfl
  | cons c cs ih =>
      have hcd : ¬c = d := by
        intro he
        exact h (by simp [he])
      have hcs : d ∉ cs := fun hm => h (List.mem_cons_of_mem _ hm)
      simp [strsepChar, hcd, ih hcs]

theorem strsepChar_split (d : Char) (a b : List Char) (h : d ∉ a) :
    strsepChar d (a ++ d :: b) = (a, some b) := by
  induction a with
  | nil => simp [strsepChar]
  | cons c cs ih =>
      have hcd : ¬c = d := by
        intro he
        exact h (by simp [he])
      have hcs : d ∉ cs := fun hm => h (List.mem_cons_of_mem _ hm)
      simp [strsepChar, hcd, ih hcs]

theorem verify_never_set (opts : List CliOpt) (st0 : OptState)
    (h : st0.flags.verifyServer = false) :
    (opts.foldl applyOpt st0).flags.verifyServer = false := by
  induction opts generalizing st0 with
  | nil => simpa using h
  | cons o rest ih =>
      refine ih _ ?_
      cases o <;> simp only [applyOpt] <;> split_ifs <;> simp [h]

theorem client_readline_step_ret (st : RLState) (e : RLEvent) (r : RLResult)
    (h : (client_readline_step st e).2 = Sum.inr r) :
    r.ret = -1 ∨ 1 ≤ r.ret := by
  cases e with
  | pollEINTR => simp [client_readline_step] at h
  | pollFail =>
      simp [client_readline_step] at h
      simp [← h]
  | stdinChar c =>
      simp only [client_readline_step] at h
      split_ifs at h with h1 h2 h3 h4 h5
      · simp only [] at h
        simp at h
        rw [← h]
        simp
        omega
      · simp at h
        rw [← h]
        simp
  | stdinClosed =>
      simp [client_readline_step] at h
      simp [← h]
  | pipeData bytes stdoutOk =>
      simp only [client_readline_step] at h
      split_ifs at h <;> simp at h <;> simp [← h]
  | pipeClosed =>
      simp [client_readline_step] at h
      simp [← h]

theorem client_readline_run_ret (st : RLState) (evs : List RLEvent) (r : RLResult)
    (h : client_readline_run st evs = some r) :
    r.ret = -1 ∨ 1 ≤ r.ret := by
  induction evs generalizing st with
  | nil => simp [client_readline_run] at h
  | cons e rest ih =>
      rw [client_readline_run] at h
      rcases hs : (client_readline_step st e).2 with st2 | r2
      · rw [hs] at h
        exact ih _ h
      · rw [hs] at h
        have hr : r2 = r := by simpa using h
        exact hr ▸ client_readline_step_ret st e r2 hs

/-! Claim theorems. -/

/-- C5: Whenever the receive loop (irc_loop inside rx_thread) returns, the
connection's connected flag is already false at that point, so the
assertion of !irc_client_connected(client) cannot fire, and only after
that check is the one-byte termination signal written to the notification
pipe. -/
theorem rx_exit_connected_false_then_signal (c : Conn) (ok : Bool) :
    (rx_thread c ok).1.connected = false ∧
    (rx_thread c ok).2 =
      (if ok then [RxEv.logFileOpen] else [RxEv.logFileOpen, RxEv.logOpenErr]) ++
        [RxEv.loopRun, RxEv.logInfoExited, RxEv.assertNotConnected true,
          RxEv.pipeWriteByte] := by
  cases ok <;> simp [rx_thread, irc_loop]

/-- C5 witness: a connection that was connected when the loop started is
no longer connected when the loop has returned, and the signal byte
follows the assertion check. -/
theorem rx_exit_connected_false_then_signal_witness :
    (rx_thread ⟨true⟩ true).1.connected = false ∧
    (rx_thread ⟨true⟩ true).2 =
      [RxEv.logFileOpen, RxEv.loopRun, RxEv.logInfoExited,
        RxEv.assertNotConnected true, RxEv.pipeWriteByte] := by
  have h := rx_exit_connected_false_then_signal ⟨true⟩ true
  exact ⟨h.1, by simpa using h.2⟩

/-- C6: The shutdown signal is a single raw one-byte write of a zero byte
to the notification pipe with no buffered or formatted output on that
path; a client_readline blocked in poll that receives it sets the
shutting_down flag and returns, and the main loop then exits without
treating the return value as a disconnect. -/
theorem shutdown_signal_wakes_and_exits :
    __sigint_handler = [SigEff.rawPipeWrite [0]] ∧
    (∀ s : List Char, SigEff.bufferedOutput s ∉ __sigint_handler) ∧
    (∀ st : RLState, ∀ ok : Bool,
      client_readline_step st (RLEvent.pipeData [0] ok) =
        ([], Sum.inr ⟨-1, true⟩)) ∧
    (∀ r : Int, main_loop_step true r = LoopDecision.exitRequested) := by
  refine ⟨rfl, ?_, ?_, ?_⟩
  · intro s
    simp [__sigint_handler]
  · intro st ok
    simp [client_readline_step]
  · intro r
    simp [main_loop_step]

/-- C6 witness: the concrete signal byte list wakes a concrete blocked
reader, which returns with the shutdown flag set. -/
theorem shutdown_signal_wakes_and_exits_witness :
    client_readline_step ⟨0, 512, false, []⟩ (RLEvent.pipeData [0] true) =
      ([], Sum.inr ⟨-1, true⟩) :=
  shutdown_signal_wakes_and_exits.2.2.1 ⟨0, 512, false, []⟩ true

/-- C8: When no port is supplied, the port handed to the connection is the
protocol-standard default for the chosen transport security: the TLS
default 6697 when the use-TLS flag is set and the plaintext default 6667
otherwise. -/
theorem default_port_by_tls_flag (opts : List CliOpt)
    (h : (parseOpts opts).port = 0) :
    mainPortUsed opts =
      (if (parseOpts opts).flags.useTls then 6697 else 6667) := by
  simp [mainPortUsed, resolvePort, h, IRC_DEFAULT_PORT, IRC_DEFAULT_TLS_PORT]

/-- C8 witness: with only -t given the port is 0 and resolves to the TLS
default; with no options it resolves to the plaintext default. -/
theorem default_port_by_tls_flag_witness :
    mainPortUsed [CliOpt.t] = 6697 ∧ mainPortUsed [] = 6667 := by
  constructor
  · have h := default_port_by_tls_flag [CliOpt.t] (by decide)
    simpa using h
  · have h := default_port_by_tls_flag [] (by decide)
    simpa using h

/-- C9: Every front-end path that enables TLS (the -t option and /server
with an explicit port above 6670) clears the peer-verification flag at
the same time; no option list yields a flag word with verification set,
and the only flag word the /server branch installs has TLS on and
verification off. -/
theorem no_tls_with_verification (opts : List CliOpt) (st : CliState)
    (s : Option (List Char)) :
    (parseOpts opts).flags.verifyServer = false ∧
    ((parseOpts opts).flags.useTls = true →
      (parseOpts opts).flags.verifyServer = false) ∧
    (∀ f : IrcFlags, CliEff.setFlagsEff f ∈ (serverCase st s).2.2 →
      f.useTls = true ∧ f.verifyServer = false) := by
  have h1 : (parseOpts opts).flags.verifyServer = false :=
    verify_never_set opts initOptState rfl
  refine ⟨h1, fun _ => h1, ?_⟩
  intro f hf
  unfold serverCase at hf
  rcases hsv : strsepOpt ' ' s with ⟨server, s2⟩
  rw [hsv] at hf
  cases server with
  | none => simp at hf
  | some host =>
      simp only at hf
      split_ifs at hf with hp hnew hconn hthr <;> simp_all [flagsNone]

/-- C9 witness: -t alone yields TLS without verification, and the /server
branch on port 6697 installs exactly the TLS-without-verification flag
word. -/
theorem no_tls_with_verification_witness :
    (parseOpts [CliOpt.t]).flags.useTls = true ∧
    (parseOpts [CliOpt.t]).flags.verifyServer = false := by
  have h := no_tls_with_verification [CliOpt.t]
    ⟨false, [], false, 0, 0, true, true, true⟩ none
  exact ⟨by decide, h.1⟩

/-- C10: client_readline never returns 0: an empty input line reprints the
prompt and keeps reading instead of returning, and every return value is
either the -1 error/exit result or at least 1, so an empty line never
makes the main loop treat the client as disconnected. -/
theorem readline_never_returns_zero :
    (∀ (st : RLState) (evs : List RLEvent) (r : RLResult),
      client_readline_run st evs = some r → r.ret = -1 ∨ 1 ≤ r.ret) ∧
    (∀ st : RLState, st.numRead = 0 →
      client_readline_step st (RLEvent.stdinChar (Char.ofNat 10)) =
        ([TermEff.promptPrint], Sum.inl st)) ∧
    (∀ r : Int, r = -1 ∨ 1 ≤ r →
      main_loop_step false r ≠ LoopDecision.dispatchLine → r = -1) := by
  refine ⟨client_readline_run_ret, ?_, ?_⟩
  · intro st h0
    simp [client_readline_step, h0]
  · intro r hr hd
    rcases hr with hr | hr
    · exact hr
    · exfalso
      apply hd
      simp [main_loop_step]
      omega

/-- C10 witness: a line consisting of one character then a newline returns
1, and the step on a bare newline with nothing typed reprints the prompt
and continues. -/
theorem readline_never_returns_zero_witness :
    ((RLResult.mk 1 false).ret = -1 ∨ 1 ≤ (RLResult.mk 1 false).ret) ∧
    client_readline_step ⟨0, 512, false, []⟩ (RLEvent.stdinChar (Char.ofNat 10)) =
      ([TermEff.promptPrint], Sum.inl ⟨0, 512, false, []⟩) :=
  ⟨readline_never_returns_zero.1 ⟨0, 512, false, []⟩
      [RLEvent.stdinChar 'a', RLEvent.stdinChar (Char.ofNat 10)] ⟨1, false⟩ (by decide),
    readline_never_returns_zero.2.1 ⟨0, 512, false, []⟩ rfl⟩

/-- C1: A received CTCP message is treated as a request exactly when it is
carried on PRIVMSG (PING and TIME requests are answered with a CTCP
reply) and as a reply exactly when it is carried on NOTICE (reported to
the user, never answered automatically); the direction is decided by the
carrying command alone, never by the payload. -/
theorem ctcp_direction_by_carrying_command (env : MsgEnv) (st : ClientState)
    (msg : IrcMsg)
    (hty : msg.type = IrcCmd.privmsg ∨ msg.type = IrcCmd.notice)
    (hc : msg.isCtcp = true) (hp : msg.ctcpParsed = true) :
    (msg.type = IrcCmd.privmsg ∧ msg.ctcpType = CtcpType.ping →
      Effect.ctcpReply msg.pfx CtcpType.ping msg.body ∈ (handle_irc_msg env st msg).2) ∧
    (msg.type = IrcCmd.privmsg ∧ msg.ctcpType = CtcpType.time →
      Effect.ctcpReply msg.pfx CtcpType.time env.timeStr ∈ (handle_irc_msg env st msg).2) ∧
    (msg.type = IrcCmd.notice →
      (handle_irc_msg env st msg).2.filter isCtcpReplySend = [] ∧
        (handle_irc_msg env st msg).2.filter isUserReport ≠ []) ∧
    ((handle_irc_msg env st msg).2.filter isCtcpReplySend ≠ [] →
      msg.type = IrcCmd.privmsg) ∧
    (∀ m2 : IrcMsg, m2.type = msg.type →
      ctcpDirectionIsRequest m2 = ctcpDirectionIsRequest msg) := by
  obtain ⟨ty, num, cmd, pfx, body, chan, ic, cp, ct⟩ := msg
  obtain rfl : ic = true := hc
  obtain rfl : cp = true := hp
  rcases hty with hty | hty
  · obtain rfl : ty = IrcCmd.privmsg := hty
    refine ⟨?_, ?_, ?_, ?_, ?_⟩
    · rintro ⟨-, hct⟩
      obtain rfl : ct = CtcpType.ping := hct
      simp [handle_irc_msg, privmsgNoticeCase, ctcpCase]
    · rintro ⟨-, hct⟩
      obtain rfl : ct = CtcpType.time := hct
      simp [handle_irc_msg, privmsgNoticeCase, ctcpCase]
    · rintro h
      exact absurd h (by simp)
    · intro _
      rfl
    · intro m2 h2
      simp [ctcpDirectionIsRequest, h2]
  · obtain rfl : ty = IrcCmd.notice := hty
    have hfil : (handle_irc_msg env st
        ⟨IrcCmd.notice, num, cmd, pfx, body, chan, true, true, ct⟩).2.filter
          isCtcpReplySend = [] := by
      simp only [handle_irc_msg, privmsgNoticeCase, Bool.and_self, if_true,
        List.filter_append, bell_filter_ctcp]
      cases ct <;> simp [ctcpCase, isCtcpReplySend]
    refine ⟨?_, ?_, ?_, ?_, ?_⟩
    · rintro ⟨h, -⟩
      exact absurd h (by simp)
    · rintro ⟨h, -⟩
      exact absurd h (by simp)
    · intro _
      refine ⟨hfil, ?_⟩
      simp only [handle_irc_msg, privmsgNoticeCase, Bool.and_self, if_true,
        List.filter_append]
      cases ct <;> simp [ctcpCase, isUserReport]
    · intro hne
      exact absurd hfil hne
    · intro m2 h2
      simp [ctcpDirectionIsRequest, h2]

/-- C1 witness: a CTCP PING carried on PRIVMSG is answered with a CTCP
reply echoing the data, and the same payload carried on NOTICE produces
no automatic reply. -/
theorem ctcp_direction_by_carrying_command_witness :
    Effect.ctcpReply (("alice!u@h").toList) CtcpType.ping (("12345").toList) ∈
      (handle_irc_msg ⟨[], []⟩ ⟨("me").toList, [], false⟩
        ⟨IrcCmd.privmsg, 0, [], ("alice!u@h").toList, ("12345").toList,
          ("#c").toList, true, true, CtcpType.ping⟩).2 ∧
    ((handle_irc_msg ⟨[], []⟩ ⟨("me").toList, [], false⟩
        ⟨IrcCmd.notice, 0, [], ("alice!u@h").toList, ("12345").toList,
          ("#c").toList, true, true, CtcpType.ping⟩).2.filter isCtcpReplySend = []) :=
  ⟨(ctcp_direction_by_carrying_command ⟨[], []⟩ ⟨("me").toList, [], false⟩
      ⟨IrcCmd.privmsg, 0, [], ("alice!u@h").toList, ("12345").toList,
        ("#c").toList, true, true, CtcpType.ping⟩ (Or.inl rfl) rfl rfl).1 ⟨rfl, rfl⟩,
    ((ctcp_direction_by_carrying_command ⟨[], []⟩ ⟨("me").toList, [], false⟩
      ⟨IrcCmd.notice, 0, [], ("alice!u@h").toList, ("12345").toList,
        ("#c").toList, true, true, CtcpType.ping⟩ (Or.inr rfl) rfl rfl).2.2.1 rfl).1⟩

/-- C2: A delivered message whose numeric code or command has no explicit
case in the event callback is reported through the process-wide logging
callback at warning level, with its prefix, its numeric or command token,
and its body, the state is left unchanged, and the callback returns so
that the loop processes the remaining messages. -/
theorem unhandled_messages_logged (env : MsgEnv) (st : ClientState) (msg : IrcMsg) :
    (msg.type = IrcCmd.numeric → handledNumeric msg.numericCode = false →
      handle_irc_msg env st msg =
        (st, [Effect.logMsg LogLevel.warn
          (("Unhandled numeric: prefix: ").toList ++ msg.pfx ++ (", num: ").toList ++
            natChars msg.numericCode ++ (", body: ").toList ++ msg.body ++ nl)])) ∧
    (msg.type = IrcCmd.unrecognized →
      handle_irc_msg env st msg =
        (st, [Effect.logMsg LogLevel.warn
          (("Unhandled command: prefix: ").toList ++ msg.pfx ++ (", command: ").toList ++
            msg.command ++ (", body: ").toList ++ msg.body ++ nl)])) ∧
    (∀ rest : List IrcMsg,
      runCallback env st (msg :: rest) =
        ((runCallback env (handle_irc_msg env st msg).1 rest).1,
          (handle_irc_msg env st msg).2 ++
            (runCallback env (handle_irc_msg env st msg).1 rest).2)) := by
  obtain ⟨ty, num, cmd, pfx, body, chan, ic, cp, ct⟩ := msg
  refine ⟨?_, ?_, ?_⟩
  · intro hty hn
    obtain rfl : ty = IrcCmd.numeric := hty
    simp only [handledNumeric, Bool.or_eq_false_iff] at hn
    obtain ⟨⟨⟨hn1, hn2⟩, hn3⟩, hn4⟩ := hn
    simp only [decide_eq_false_iff_not] at hn2 hn3 hn4
    simp [handle_irc_msg, numericCase, unhandledNumericText, hn1, hn2, hn3, hn4]
  · intro hty
    obtain rfl : ty = IrcCmd.unrecognized := hty
    simp [handle_irc_msg, unhandledCommandText]
  · intro rest
    simp [runCallback]

/-- C2 witness: numeric 482, which has no case label, is logged at warning
level with prefix, numeric and body, and the following message is still
processed. -/
theorem unhandled_messages_logged_witness :
    handle_irc_msg ⟨[], []⟩ ⟨("me").toList, [], false⟩
        ⟨IrcCmd.numeric, 482, [], ("srv").toList, ("denied").toList, [],
          false, false, CtcpType.unknown⟩ =
      (⟨("me").toList, [], false⟩, [Effect.logMsg LogLevel.warn
        (("Unhandled numeric: prefix: ").toList ++ ("srv").toList ++ (", num: ").toList ++
          natChars 482 ++ (", body: ").toList ++ ("denied").toList ++ nl)]) :=
  (unhandled_messages_logged ⟨[], []⟩ ⟨("me").toList, [], false⟩
      ⟨IrcCmd.numeric, 482, [], ("srv").toList, ("denied").toList, [],
        false, false, CtcpType.unknown⟩).1 rfl (by decide)

/-- C7 counterexample: a NICK message about a different user (its origin
nick is 64 characters, one longer than the client's 63-character
nickname, with the same first 63 characters) does update the stored
nickname, because the comparison happens on the strncpy-truncated copy of
the origin. -/
theorem nick_update_truncation_cex :
    prefixNickPortion nickCexMsg.pfx ≠ nickCexSt.nickname ∧
    Effect.setNick (nickCexMsg.body.drop 1) ∈
      (handle_irc_msg ⟨[], []⟩ nickCexSt nickCexMsg).2 ∧
    (handle_irc_msg ⟨[], []⟩ nickCexSt nickCexMsg).1.nickname ≠
      nickCexSt.nickname := by
  decide

/-- C7 (amended): on a NICK message the callback updates the stored
nickname (irc_client_set_nick followed by a prompt update) exactly when
the nick portion of the first 63 bytes of the message prefix, as kept by
the strncpy into the 64-byte buffer, equals the client's current
nickname; otherwise the stored nickname and the prompt are left
unchanged. -/
theorem nick_update_iff_truncated_match (env : MsgEnv) (st : ClientState)
    (msg : IrcMsg) (h : msg.type = IrcCmd.nick) :
    (truncatedNickPortion msg.pfx = st.nickname →
      (handle_irc_msg env st msg).1 = { st with nickname := msg.body.drop 1 } ∧
      Effect.setNick (msg.body.drop 1) ∈ (handle_irc_msg env st msg).2 ∧
      Effect.promptUpdate ∈ (handle_irc_msg env st msg).2) ∧
    (truncatedNickPortion msg.pfx ≠ st.nickname →
      (handle_irc_msg env st msg).1 = st ∧
      (∀ n, Effect.setNick n ∉ (handle_irc_msg env st msg).2) ∧
      Effect.promptUpdate ∉ (handle_irc_msg env st msg).2) := by
  obtain ⟨ty, num, cmd, pfx, body, chan, ic, cp, ct⟩ := msg
  obtain rfl : ty = IrcCmd.nick := h
  have he : handle_irc_msg env st ⟨IrcCmd.nick, num, cmd, pfx, body, chan, ic, cp, ct⟩ =
      nickCase st ⟨IrcCmd.nick, num, cmd, pfx, body, chan, ic, cp, ct⟩ := rfl
  constructor
  · intro hm
    rw [he, nickCase_eq, if_pos hm]
    simp
  · intro hm
    rw [he, nickCase_eq, if_neg hm]
    simp

/-- C7 witness: a NICK change whose origin nick equals the client's
nickname updates the stored nickname and refreshes the prompt. -/
theorem nick_update_iff_truncated_match_witness :
    (handle_irc_msg ⟨[], []⟩ ⟨("me").toList, [], false⟩
        ⟨IrcCmd.nick, 0, [], ("me!u@h").toList, (":me2").toList, [],
          false, false, CtcpType.unknown⟩).1 =
      { nickname := ("me2").toList, hostname := ([] : List Char), dnd := false } ∧
    Effect.promptUpdate ∈ (handle_irc_msg ⟨[], []⟩ ⟨("me").toList, [], false⟩
        ⟨IrcCmd.nick, 0, [], ("me!u@h").toList, (":me2").toList, [],
          false, false, CtcpType.unknown⟩).2 := by
  have h := (nick_update_iff_truncated_match ⟨[], []⟩ ⟨("me").toList, [], false⟩
    ⟨IrcCmd.nick, 0, [], ("me!u@h").toList, (":me2").toList, [],
      false, false, CtcpType.unknown⟩ rfl).1 (by decide)
  exact ⟨h.1, h.2.2⟩

/-- C3: A /command invoked with a missing required argument, and any
connection-requiring /command invoked while not connected, makes
handle_send_msg return -1 after logging the error, and no network
operation is invoked on those paths.  The claim's cited examples (/msg
with no message, /topic with no topic, /invite with no channel) are
stated at the handle_send_msg level, and every REQUIRED_PARAMETER site of
client.c is covered: /debug without a level, /fg without a channel,
/server without a hostname, /msg, /notice and /describe without a message
(the exact failure condition of REQUIRED_PARAMETER(s): no second token),
/ctcp without a target or without a code, /nick without a nickname,
/topic without a channel or without a topic, /invite without a nickname
or without a channel, and /identify without a nickname or without a
password. -/
theorem usage_errors_rejected_without_io :
    (∀ (st : CliState) (rest : List Char),
      handle_send_msg st ('/' :: rest) =
        handle_slash st (strsepChar ' ' rest).1 (strsepChar ' ' rest).2) ∧
    (∀ (st : CliState) (command : List Char) (s : Option (List Char)),
      st.connected = false →
      strcaseeq command (("help").toList) = false →
      strcaseeq command (("debug").toList) = false →
      strcaseeq command (("dnd").toList) = false →
      strcaseeq command (("fg").toList) = false →
      strcaseeq command (("server").toList) = false →
      handle_slash st command s =
        (-1, st, [CliEff.log LogLevel.err notConnectedText]) ∧
      (handle_slash st command s).2.2.filter isNetEff = []) ∧
    (∀ (st : CliState) (chan : List Char), st.connected = true → ' ' ∉ chan →
      handle_send_msg st ('/' :: (("msg ").toList ++ chan)) =
        (-1, st, [CliEff.log LogLevel.err (missingParamText (("message").toList))])) ∧
    (∀ (st : CliState) (chan : List Char), st.connected = true → ' ' ∉ chan →
      handle_send_msg st ('/' :: (("topic ").toList ++ chan)) =
        (-1, st, [CliEff.log LogLevel.err (missingParamText (("topic").toList))])) ∧
    (∀ (st : CliState) (nick : List Char), st.connected = true → ' ' ∉ nick →
      handle_send_msg st ('/' :: (("invite ").toList ++ nick)) =
        (-1, st, [CliEff.log LogLevel.err (missingParamText (("channel").toList))])) ∧
    (∀ (lvl : LogLevel) (s : List Char), isNetEff (CliEff.log lvl s) = false) ∧
    (∀ st : CliState, handle_slash st (("debug").toList) none =
      (-1, st, [CliEff.log LogLevel.err (missingParamText (("level").toList))])) ∧
    (∀ st : CliState, handle_slash st (("fg").toList) none =
      (-1, st, [CliEff.log LogLevel.err (missingParamText (("channel").toList))])) ∧
    (∀ st : CliState, handle_slash st (("server").toList) none =
      (-1, st, [CliEff.log LogLevel.err (missingParamText (("hostname").toList))])) ∧
    (∀ (st : CliState) (s : Option (List Char)), st.connected = true →
      (strsepOpt ' ' s).2 = none →
      handle_slash st (("msg").toList) s =
        (-1, st, [CliEff.log LogLevel.err (missingParamText (("message").toList))])) ∧
    (∀ (st : CliState) (s : Option (List Char)), st.connected = true →
      (strsepOpt ' ' s).2 = none →
      handle_slash st (("notice").toList) s =
        (-1, st, [CliEff.log LogLevel.err (missingParamText (("message").toList))])) ∧
    (∀ (st : CliState) (s : Option (List Char)), st.connected = true →
      (strsepOpt ' ' s).2 = none →
      handle_slash st (("describe").toList) s =
        (-1, st, [CliEff.log LogLevel.err (missingParamText (("message").toList))])) ∧
    (∀ st : CliState, st.connected = true →
      handle_slash st (("ctcp").toList) none =
        (-1, st, [CliEff.log LogLevel.err (missingParamText (("target").toList))])) ∧
    (∀ (st : CliState) (s : Option (List Char)) (c : List Char),
      st.connected = true → strsepOpt ' ' s = (some c, none) →
      handle_slash st (("ctcp").toList) s =
        (-1, st, [CliEff.log LogLevel.err (missingParamText (("code").toList))])) ∧
    (∀ st : CliState, st.connected = true →
      handle_slash st (("nick").toList) none =
        (-1, st, [CliEff.log LogLevel.err (missingParamText (("nickname").toList))])) ∧
    (∀ st : CliState, st.connected = true →
      handle_slash st (("topic").toList) none =
        (-1, st, [CliEff.log LogLevel.err (missingParamText (("channel").toList))])) ∧
    (∀ (st : CliState) (s : Option (List Char)) (c : List Char),
      st.connected = true → strsepOpt ' ' s = (some c, none) →
      handle_slash st (("topic").toList) s =
        (-1, st, [CliEff.log LogLevel.err (missingParamText (("topic").toList))])) ∧
    (∀ st : CliState, st.connected = true →
      handle_slash st (("invite").toList) none =
        (-1, st, [CliEff.log LogLevel.err (missingParamText (("nickname").toList))])) ∧
    (∀ (st : CliState) (s : Option (List Char)) (c : List Char),
      st.connected = true → strsepOpt ' ' s = (some c, none) →
      handle_slash st (("invite").toList) s =
        (-1, st, [CliEff.log LogLevel.err (missingParamText (("channel").toList))])) ∧
    (∀ st : CliState, st.connected = true →
      handle_slash st (("identify").toList) none =
        (-1, st, [CliEff.log LogLevel.err (missingParamText (("nickname").toList))])) ∧
    (∀ (st : CliState) (s : Option (List Char)) (c : List Char),
      st.connected = true → strsepOpt ' ' s = (some c, none) →
      handle_slash st (("identify").toList) s =
        (-1, st, [CliEff.log LogLevel.err (missingParamText (("password").toList))])) := by
  refine ⟨fun st rest => rfl, ?_, ?_, ?_, ?_, fun lvl s => rfl,
    ?_, ?_, ?_, ?_, ?_, ?_, ?_, ?_, ?_, ?_, ?_, ?_, ?_, ?_, ?_⟩
  · intro st command s hconn h1 h2 h3 h4 h5
    simp at h1 h2 h3 h4 h5
    have he : handle_slash st command s =
        (-1, st, [CliEff.log LogLevel.err notConnectedText]) := by
      simp only [handle_slash]
      rw [if_neg (by simp [h1]), if_neg (by simp [h2]), if_neg (by simp [h3]),
        if_neg (by simp [h4]), if_neg (by simp [h5]), if_pos (by simp [hconn])]
    exact ⟨he, by rw [he]; rfl⟩
  · intro st chan hconn hns
    have hsp : strsepChar ' ' (("msg ").toList ++ chan) =
        (("msg").toList, some chan) := by
      have h := strsepChar_split ' ' (("msg").toList) chan (by decide)
      simpa using h
    rw [show handle_send_msg st ('/' :: (("msg ").toList ++ chan)) =
        handle_slash st (strsepChar ' ' (("msg ").toList ++ chan)).1
          (strsepChar ' ' (("msg ").toList ++ chan)).2 from rfl, hsp]
    have hs2 : strsepOpt ' ' (some chan) = (some chan, none) := by
      simp [strsepOpt, strsepChar_no_delim ' ' chan hns]
    simp only [handle_slash]
    rw [if_neg (by decide), if_neg (by decide), if_neg (by decide), if_neg (by decide),
      if_neg (by decide), if_neg (by simp [hconn]), if_neg (by decide),
      if_neg (by decide), if_neg (by decide), if_neg (by decide), if_pos (by decide),
      hs2]
  · intro st chan hconn hns
    have hsp : strsepChar ' ' (("topic ").toList ++ chan) =
        (("topic").toList, some chan) := by
      have h := strsepChar_split ' ' (("topic").toList) chan (by decide)
      simpa using h
    rw [show handle_send_msg st ('/' :: (("topic ").toList ++ chan)) =
        handle_slash st (strsepChar ' ' (("topic ").toList ++ chan)).1
          (strsepChar ' ' (("topic ").toList ++ chan)).2 from rfl, hsp]
    have hs2 : strsepOpt ' ' (some chan) = (some chan, none) := by
      simp [strsepOpt, strsepChar_no_delim ' ' chan hns]
    simp only [handle_slash]
    rw [if_neg (by decide), if_neg (by decide), if_neg (by decide), if_neg (by decide),
      if_neg (by decide), if_neg (by simp [hconn]), if_neg (by decide),
      if_neg (by decide), if_neg (by decide), if_neg (by decide), if_neg (by decide),
      if_neg (by decide), if_neg (by decide), if_neg (by decide), if_neg (by decide),
      if_neg (by decide), if_pos (by decide), hs2]
  · intro st nick hconn hns
    have hsp : strsepChar ' ' (("invite ").toList ++ nick) =
        (("invite").toList, some nick) := by
      have h := strsepChar_split ' ' (("invite").toList) nick (by decide)
      simpa using h
    rw [show handle_send_msg st ('/' :: (("invite ").toList ++ nick)) =
        handle_slash st (strsepChar ' ' (("invite ").toList ++ nick)).1
          (strsepChar ' ' (("invite ").toList ++ nick)).2 from rfl, hsp]
    have hs2 : strsepOpt ' ' (some nick) = (some nick, none) := by
      simp [strsepOpt, strsepChar_no_delim ' ' nick hns]
    simp only [handle_slash]
    rw [if_neg (by decide), if_neg (by decide), if_neg (by decide), if_neg (by decide),
      if_neg (by decide), if_neg (by simp [hconn]), if_neg (by decide),
      if_neg (by decide), if_neg (by decide), if_neg (by decide), if_neg (by decide),
      if_neg (by decide), if_neg (by decide), if_neg (by decide), if_neg (by decide),
      if_neg (by decide), if_neg (by decide), if_neg (by decide), if_pos (by decide),
      hs2]
    simp [strsepOpt]
  · intro st
    simp only [handle_slash]
    simp +decide [strsepOpt]
  · intro st
    simp only [handle_slash]
    simp +decide [strsepOpt]
  · intro st
    simp only [handle_slash]
    simp +decide [serverCase, strsepOpt]
  · intro st s hconn hs
    rcases hsv : strsepOpt ' ' s with ⟨channel, s2⟩
    rw [hsv] at hs
    simp at hs
    subst hs
    simp only [handle_slash]
    simp +decide [hconn, hsv]
  · intro st s hconn hs
    rcases hsv : strsepOpt ' ' s with ⟨channel, s2⟩
    rw [hsv] at hs
    simp at hs
    subst hs
    simp only [handle_slash]
    simp +decide [hconn, hsv]
  · intro st s hconn hs
    rcases hsv : strsepOpt ' ' s with ⟨channel, s2⟩
    rw [hsv] at hs
    simp at hs
    subst hs
    simp only [handle_slash]
    simp +decide [hconn, hsv]
  · intro st hconn
    simp only [handle_slash]
    simp +decide [hconn, strsepOpt]
  · intro st s c hconn hs
    simp only [handle_slash]
    rw [hs]
    simp +decide [hconn, strsepOpt]
  · intro st hconn
    simp only [handle_slash]
    simp +decide [hconn, strsepOpt]
  · intro st hconn
    simp only [handle_slash]
    simp +decide [hconn, strsepOpt]
  · intro st s c hconn hs
    simp only [handle_slash]
    rw [hs]
    simp +decide [hconn, strsepOpt]
  · intro st hconn
    simp only [handle_slash]
    simp +decide [hconn, strsepOpt]
  · intro st s c hconn hs
    simp only [handle_slash]
    rw [hs]
    simp +decide [hconn, strsepOpt]
  · intro st hconn
    simp only [handle_slash]
    simp +decide [hconn, strsepOpt]
  · intro st s c hconn hs
    simp only [handle_slash]
    rw [hs]
    simp +decide [hconn, strsepOpt]

/-- C3 witness: /msg while disconnected is rejected with the
not-connected error and no network effect, /msg with a channel but no
message is rejected with the missing-parameter error, and /nick with no
argument while connected is rejected with the missing-nickname error. -/
theorem usage_errors_rejected_without_io_witness :
    handle_slash ⟨false, [], false, 0, 0, true, true, true⟩ (("msg").toList) none =
      (-1, ⟨false, [], false, 0, 0, true, true, true⟩,
        [CliEff.log LogLevel.err notConnectedText]) ∧
    handle_send_msg ⟨true, [], false, 0, 0, true, true, true⟩
        ('/' :: (("msg ").toList ++ ("#chan").toList)) =
      (-1, ⟨true, [], false, 0, 0, true, true, true⟩,
        [CliEff.log LogLevel.err (missingParamText (("message").toList))]) ∧
    handle_slash ⟨true, [], false, 0, 0, true, true, true⟩ (("nick").toList) none =
      (-1, ⟨true, [], false, 0, 0, true, true, true⟩,
        [CliEff.log LogLevel.err (missingParamText (("nickname").toList))]) :=
  ⟨(usage_errors_rejected_without_io.2.1 ⟨false, [], false, 0, 0, true, true, true⟩
      (("msg").toList) none rfl (by decide) (by decide) (by decide) (by decide)
      (by decide)).1,
    usage_errors_rejected_without_io.2.2.1 ⟨true, [], false, 0, 0, true, true, true⟩
      (("#chan").toList) rfl (by decide),
    usage_errors_rejected_without_io.2.2.2.2.2.2.2.2.2.2.2.2.2.2.1
      ⟨true, [], false, 0, 0, true, true, true⟩ rfl⟩

/-- C4: When a password was supplied, every byte of the caller's password
buffer is zeroed after the client object is created and before
irc_client_login is invoked: the login event occurs, no login precedes
the zeroing, no zeroing precedes the client creation, and the one zeroing
event writes zeros over the whole buffer (all 73 bytes of passwordbuf for
an interactively read password, strlen(password) bytes for -k). -/
theorem password_zeroed_before_login (cfg : MainCfg) (pw : List Char)
    (fromStdin : Bool)
    (hex : cfg.opts.exited = false)
    (hpw : resolvedPassword cfg = some (pw, fromStdin))
    (hnew : cfg.newOk = true) (hsf : cfg.setFlagsOk = true)
    (hco : cfg.connectOk = true) :
    MainEv.loginAttempt ∈ main_connect_phase cfg ∧
    zeroPrecedesLogin (main_connect_phase cfg) = true ∧
    newPrecedesZero (main_connect_phase cfg) = true ∧
    (∀ bs : List Nat, MainEv.zeroPassword bs ∈ main_connect_phase cfg →
      bs = zeroedPasswordBytes pw fromStdin) ∧
    (∀ b ∈ zeroedPasswordBytes pw fromStdin, b = 0) ∧
    (zeroedPasswordBytes pw fromStdin).length =
      (if fromStdin then 73 else pw.length) := by
  have hguard : (cfg.opts.username.isSome && cfg.opts.password.isNone &&
      cfg.stdinIsTty && cfg.pwReadResult.isNone) = false := by
    unfold resolvedPassword at hpw
    by_cases hc : (cfg.opts.username.isSome && cfg.opts.password.isNone &&
        cfg.stdinIsTty) = true
    · rw [if_pos hc] at hpw
      rcases hr : cfg.pwReadResult with _ | v
      · rw [hr] at hpw
        simp at hpw
      · simp [hr]
    · rw [if_neg hc] at hpw
      cases hA : cfg.opts.username.isSome <;>
        cases hB : cfg.opts.password.isNone <;>
        cases hC : cfg.stdinIsTty <;> simp_all
  have hz1 : ∀ b ∈ zeroedPasswordBytes pw fromStdin, b = 0 := by
    intro b hb
    simp only [zeroedPasswordBytes] at hb
    split_ifs at hb <;> exact List.eq_of_mem_replicate hb
  have hz2 : (zeroedPasswordBytes pw fromStdin).length =
      (if fromStdin then 73 else pw.length) := by
    unfold zeroedPasswordBytes
    rcases fromStdin <;> simp
  simp only [main_connect_phase, hex, hguard, hpw, hnew, hsf, hco, rxStartEvs,
    Bool.false_eq_true, if_false, Bool.not_true, Bool.false_eq_true]
  refine ⟨?_, ?_, ?_, ?_, hz1, hz2⟩ <;>
    split_ifs <;>
    simp_all [zeroPrecedesLogin, newPrecedesZero]

/-- C4 witness: with a -k password, a working connection and the default
options, login occurs and the password bytes are zeroed first. -/
theorem password_zeroed_before_login_witness :
    MainEv.loginAttempt ∈ main_connect_phase
      ⟨⟨flagsNone, 0, ("127.0.0.1").toList, none, some (("hunter2").toList),
          none, none, 0, false⟩, false, none, true, true, true, true, true⟩ ∧
    zeroPrecedesLogin (main_connect_phase
      ⟨⟨flagsNone, 0, ("127.0.0.1").toList, none, some (("hunter2").toList),
          none, none, 0, false⟩, false, none, true, true, true, true, true⟩) = true := by
  have h := password_zeroed_before_login
    ⟨⟨flagsNone, 0, ("127.0.0.1").toList, none, some (("hunter2").toList),
        none, none, 0, false⟩, false, none, true, true, true, true, true⟩
    (("hunter2").toList) false rfl (by decide) rfl rfl rfl
  exact ⟨h.1, h.2.1⟩

end Lirc
